import Mathlib

/-
Verification of the heating-control-bot core: a shallow embedding of the
HeatingState record, its staleness-aware derivation, the HTTP handlers
(server.rs) and the conversational dispatcher schema (main.rs).

Modelling choices:
- std::time::SystemTime is modelled as Nat (seconds since an arbitrary epoch).
  SystemTime::duration_since returns Err exactly when the argument is strictly
  later than the receiver; this is durationSince returning none. A Rust
  .unwrap() panic on that Err is modelled as the Option none propagating.
- f64 is modelled by F64: an exact rational for finite values plus the three
  non-finite classes (inf, -inf, NaN). The IEEE comparison current < target is
  F64.lt, which is false whenever either operand is NaN. Rounding of decimal
  literals to binary floats is not modelled: finite parsed values are kept as
  exact rationals, which is faithful for every comparison the claims involve.
- Replies sent with bot.send_message are modelled by the inductive Reply, one
  constructor per distinct message text of the source.
- The teloxide dispatch tree of schema() is modelled by handleUpdate: the
  authorization filter first, then the command branches (the five
  State::Initial cases, then the any-state Cancel case), then the
  State::ReceiveTemp endpoint, then the invalid_state fallback, in the order
  the branches appear in the source.
-/

namespace HeatingControl

/-- SystemTime::duration_since: some (now - earlier) when earlier <= now,
none (the Err case) when earlier is strictly later than now. -/
def durationSince (now earlier : Nat) : Option Nat :=
  if now < earlier then none else some (now - earlier)

/-- Model of f64: exact rationals for finite values, plus infinities and NaN. -/
inductive F64 where
  | finite (q : ℚ)
  | inf
  | negInf
  | nan
deriving DecidableEq, Repr

/-- IEEE-754 strict less-than on the F64 model: any comparison involving NaN
is false; -inf is below every non-NaN value other than itself; inf is above
every non-NaN value other than itself. -/
def F64.lt : F64 → F64 → Bool
  | F64.nan, _ => false
  | _, F64.nan => false
  | F64.negInf, F64.negInf => false
  | F64.negInf, _ => true
  | _, F64.negInf => false
  | F64.inf, _ => false
  | F64.finite _, F64.inf => true
  | F64.finite a, F64.finite b => decide (a < b)

/-- The HeatingState record of main.rs. -/
structure HeatingState where
  target_temp : F64
  current_temp : F64
  current_temp_reported_at : Nat
  heating_switch_is_on : Bool
deriving DecidableEq, Repr

/-- HeatingState::heating_is_on (main.rs lines 46-59): unwraps
duration_since (none models the panic on a future timestamp), returns false
when the elapsed time strictly exceeds 15 * 60 seconds, otherwise matches on
heating_switch_is_on && current_temp < target_temp. -/
def HeatingState.heating_is_on (s : HeatingState) (now : Nat) : Option Bool :=
  (durationSince now s.current_temp_reported_at).map fun elapsed =>
    if elapsed > 15 * 60 then false
    else
      match s.heating_switch_is_on && F64.lt s.current_temp s.target_temp with
      | true => true
      | false => false

/-- The initial HeatingState built in main (target 21.0, current 0.0,
switch off, timestamp taken at process start). -/
def initialHeatingState (startTime : Nat) : HeatingState :=
  { target_temp := F64.finite 21
    current_temp := F64.finite 0
    current_temp_reported_at := startTime
    heating_switch_is_on := false }

namespace Server

/-- The GET /heating_is_on handler (server.rs lines 26-41): unwraps
duration_since on the snapshot, returns "false" when stale, otherwise
matches on the conjunction with current_temp < target_temp. The source
writes heating_state.heating_is_on in that conjunction; HeatingState has no
field of that name, so the identifier is read as the method
HeatingState::heating_is_on evaluated on the same snapshot at the same time. -/
def heating_is_on (s : HeatingState) (now : Nat) : Option String :=
  match durationSince now s.current_temp_reported_at with
  | none => none
  | some elapsed =>
    if elapsed > 15 * 60 then some "false"
    else
      match s.heating_is_on now with
      | none => none
      | some h =>
        match h && F64.lt s.current_temp s.target_temp with
        | true => some "true"
        | false => some "false"

/-- The POST /temp/{temp} handler (server.rs lines 43-50): overwrites
current_temp and stamps current_temp_reported_at with the current time. -/
def receive_temp (temp : F64) (now : Nat) (s : HeatingState) : HeatingState :=
  { s with current_temp := temp, current_temp_reported_at := now }

end Server

/-- The per-conversation dialogue state of main.rs (ReceiveTemp is the
AwaitingTargetTemperature state of the spec). -/
inductive State where
  | Initial
  | ReceiveTemp
deriving DecidableEq, Repr

/-- The BotCommands enum of main.rs. -/
inductive Command where
  | Help
  | Status
  | SetTemp
  | On
  | Off
  | Cancel
deriving DecidableEq, Repr

/-- Command recognition of teloxide filter_command with the lowercase rename
rule: the message text must be exactly the slash-prefixed lowercase command
name. -/
def parseCommand (t : String) : Option Command :=
  if t = "/help" then some Command.Help
  else if t = "/status" then some Command.Status
  else if t = "/settemp" then some Command.SetTemp
  else if t = "/on" then some Command.On
  else if t = "/off" then some Command.Off
  else if t = "/cancel" then some Command.Cancel
  else none

/-- Digit test for the f64 grammar. -/
def isDigit (c : Char) : Bool := decide ('0' ≤ c) && decide (c ≤ '9')

/-- Numeric value of a decimal digit character. -/
def digitVal (c : Char) : Nat := c.toNat - Char.toNat '0'

/-- Splits a character list into its longest digit prefix and the rest. -/
def takeDigits : List Char → List Char × List Char
  | [] => ([], [])
  | c :: cs =>
    if isDigit c then
      let p := takeDigits cs
      (c :: p.1, p.2)
    else ([], c :: cs)

/-- Value of a digit list read in base 10. -/
def digitsToNat (ds : List Char) : Nat :=
  ds.foldl (fun a c => 10 * a + digitVal c) 0

/-- Finishes parsing a Number of the Rust f64 grammar: ip and fp are the
digit lists before and after the decimal point, rest is the remaining input,
which must be empty or a complete exponent part. At least one mantissa digit
is required. -/
def parseExpAndFinish (ip fp rest : List Char) : Option ℚ :=
  if ip.isEmpty && fp.isEmpty then none
  else
    let m : Nat := digitsToNat (ip ++ fp)
    let f : Nat := fp.length
    match rest with
    | [] => some (mkRat m (10 ^ f))
    | e :: r1 =>
      if e = 'e' ∨ e = 'E' then
        let signed : Int × List Char :=
          match r1 with
          | '-' :: t => (-1, t)
          | '+' :: t => (1, t)
          | t => (1, t)
        let p := takeDigits signed.2
        if p.1.isEmpty ∨ ¬ p.2.isEmpty then none
        else
          let ex : Int := signed.1 * (digitsToNat p.1 : Int) - (f : Int)
          if 0 ≤ ex then some (mkRat (m * 10 ^ ex.toNat) 1)
          else some (mkRat m (10 ^ (-ex).toNat))
      else none

/-- The Number production of the Rust f64 FromStr grammar:
digits, an optional decimal point with optional further digits, then an
optional exponent; the whole input must be consumed. -/
def parseNumber (cs : List Char) : Option ℚ :=
  let p := takeDigits cs
  match p.2 with
  | '.' :: r2 =>
    let q := takeDigits r2
    parseExpAndFinish p.1 q.1 q.2
  | _ => parseExpAndFinish p.1 [] p.2

/-- Rust f64::from_str: an optional sign, then the case-insensitive keywords
inf, infinity or nan, or a Number per the grammar above. Finite values are
kept as exact rationals. -/
def parseF64 (s : String) : Option F64 :=
  let p : Bool × List Char :=
    match s.data with
    | '-' :: t => (true, t)
    | '+' :: t => (false, t)
    | t => (false, t)
  let low := p.1
  let cs := p.2
  let lower := cs.map Char.toLower
  if lower = ['i', 'n', 'f'] ∨ lower = ['i', 'n', 'f', 'i', 'n', 'i', 't', 'y'] then
    some (if low then F64.negInf else F64.inf)
  else if lower = ['n', 'a', 'n'] then some F64.nan
  else
    match parseNumber cs with
    | none => none
    | some q => some (F64.finite (if low then -q else q))

/-- One constructor per distinct reply text sent by the handlers of main.rs. -/
inductive Reply where
  | helpText
  | cancelAck
  | invalidState
  | statusReport (switchOn : Bool) (target current : F64) (delaySecs : Nat) (heatingOn : Bool)
  | setTempPrompt
  | invalidTemperature
  | targetSet (t : F64)
  | sendTemperature
  | heatingSetOn
  | heatingSetOff
  | unauthorizedUser
deriving DecidableEq, Repr

/-- An inbound Telegram message: the chat id and the optional text. -/
structure Message where
  chatId : Int
  text : Option String
deriving DecidableEq, Repr

/-- The observable outcome of dispatching one inbound message: the replies
sent, the dialogue state and heating state afterwards, whether the handler
read a snapshot of the heating state, and whether the unauthorized-user
event was logged. -/
structure DispatchResult where
  replies : List Reply
  dialogue : State
  heating : HeatingState
  snapshotRead : Bool
  loggedUnauthorized : Bool
deriving DecidableEq, Repr

/-- check_valid_user (main.rs lines 246-258): membership of the chat id in
the authorized list. -/
def check_valid_user (authorized_users : List Int) (chatId : Int) : Bool :=
  authorized_users.contains chatId

/-- The help handler: replies with the command list, changes nothing. -/
def help (d : State) (hs : HeatingState) : DispatchResult :=
  ⟨[Reply.helpText], d, hs, false, false⟩

/-- The cancel handler: acknowledges and exits the dialogue to Initial. -/
def cancel (d : State) (hs : HeatingState) : DispatchResult :=
  match d with
  | _ => ⟨[Reply.cancelAck], State.Initial, hs, false, false⟩

/-- The invalid_state fallback (main.rs lines 134-141): the generic unable
to handle reply, nothing changes. -/
def invalid_state (d : State) (hs : HeatingState) : DispatchResult :=
  ⟨[Reply.invalidState], d, hs, false, false⟩

/-- The status handler (main.rs lines 143-172): locks the state, renders the
snapshot. HeatingState::heating_is_on unwraps and the elapsed-time
computation uses the question-mark operator, so a future timestamp makes the
handler fail: none. -/
def status (d : State) (hs : HeatingState) (now : Nat) : Option DispatchResult :=
  match hs.heating_is_on now with
  | none => none
  | some h =>
    match durationSince now hs.current_temp_reported_at with
    | none => none
    | some delay =>
      some ⟨[Reply.statusReport hs.heating_switch_is_on hs.target_temp hs.current_temp delay h],
        d, hs, true, false⟩

/-- The set_temp handler: prompts for a value and moves to ReceiveTemp. -/
def set_temp (d : State) (hs : HeatingState) : DispatchResult :=
  match d with
  | _ => ⟨[Reply.setTempPrompt], State.ReceiveTemp, hs, false, false⟩

/-- The receive_temp endpoint of main.rs (lines 181-222): with text that
parses as a float, sets target_temp, confirms and exits to Initial; with
text that fails to parse, re-prompts and changes nothing; with no text,
asks for the temperature and changes nothing. -/
def receive_temp (msg : Message) (d : State) (hs : HeatingState) : DispatchResult :=
  match msg.text with
  | some temperature =>
    match parseF64 temperature with
    | some t =>
      ⟨[Reply.targetSet t], State.Initial, { hs with target_temp := t }, false, false⟩
    | none => ⟨[Reply.invalidTemperature], d, hs, false, false⟩
  | none => ⟨[Reply.sendTemperature], d, hs, false, false⟩

/-- The set_heating_on handler (main.rs lines 224-233). -/
def set_heating_on (d : State) (hs : HeatingState) : DispatchResult :=
  ⟨[Reply.heatingSetOn], d, { hs with heating_switch_is_on := true }, false, false⟩

/-- The set_heating_off handler (main.rs lines 235-244). -/
def set_heating_off (d : State) (hs : HeatingState) : DispatchResult :=
  ⟨[Reply.heatingSetOff], d, { hs with heating_switch_is_on := false }, false, false⟩

/-- The dispatch tree of schema() (main.rs lines 98-119). The authorization
filter runs first; an unauthorized message gets the unauthorized reply and a
log entry, and no handler runs. Then the command handler tries the five
State::Initial branches, then the any-state Cancel branch; an unmatched
command falls through, so in ReceiveTemp any non-Cancel command reaches the
receive_temp endpoint, and only non-command input in Initial reaches the
invalid_state fallback. -/
def handleUpdate (authorized_users : List Int) (msg : Message) (d : State)
    (hs : HeatingState) (now : Nat) : Option DispatchResult :=
  if check_valid_user authorized_users msg.chatId then
    match msg.text.bind parseCommand, d with
    | some Command.Help, State.Initial => some (help d hs)
    | some Command.Status, State.Initial => status d hs now
    | some Command.SetTemp, State.Initial => some (set_temp d hs)
    | some Command.On, State.Initial => some (set_heating_on d hs)
    | some Command.Off, State.Initial => some (set_heating_off d hs)
    | some Command.Cancel, _ => some (cancel d hs)
    | some _, State.ReceiveTemp => some (receive_temp msg d hs)
    | none, State.ReceiveTemp => some (receive_temp msg d hs)
    | none, State.Initial => some (invalid_state d hs)
  else some ⟨[Reply.unauthorizedUser], d, hs, false, true⟩

/-- Helper: equational characterization of the derivation when the report
timestamp is not in the future. -/
theorem heating_is_on_eq (s : HeatingState) (now : Nat)
    (h : s.current_temp_reported_at ≤ now) :
    s.heating_is_on now =
      some (s.heating_switch_is_on && F64.lt s.current_temp s.target_temp &&
        decide (now - s.current_temp_reported_at ≤ 15 * 60)) := by
  unfold HeatingState.heating_is_on durationSince
  rw [if_neg (by omega)]
  rw [Option.map_some']
  by_cases h9 : now - s.current_temp_reported_at > 15 * 60
  · rw [if_pos h9]
    have hd : decide (now - s.current_temp_reported_at ≤ 15 * 60) = false := by
      simp only [decide_eq_false_iff_not]
      omega
    rw [hd]
    cases s.heating_switch_is_on && F64.lt s.current_temp s.target_temp <;> rfl
  · rw [if_neg h9]
    have hd : decide (now - s.current_temp_reported_at ≤ 15 * 60) = true := by
      simp only [decide_eq_true_eq]
      omega
    rw [hd]
    cases s.heating_switch_is_on && F64.lt s.current_temp s.target_temp <;> rfl

/-- Claim C1: for every heating state and evaluation time now with
current_temp_reported_at less than or equal to now, the derived
heating-active value equals heating_switch_is_on AND current_temp <
target_temp AND elapsed at most 900 seconds; in particular elapsed 900 is
still active when the other conjuncts hold, and elapsed 901 is inactive
regardless of the other fields. -/
theorem heating_active_iff (s : HeatingState) (now : Nat)
    (h : s.current_temp_reported_at ≤ now) :
    s.heating_is_on now =
      some (s.heating_switch_is_on && F64.lt s.current_temp s.target_temp &&
        decide (now - s.current_temp_reported_at ≤ 15 * 60)) :=
  heating_is_on_eq s now h

/-- Witness for C1: the boundary input elapsed = 900 with the switch on and
current below target is still active. -/
theorem heating_active_iff_witness :
    (HeatingState.mk (F64.finite 21) (F64.finite 0) 0 true).heating_is_on 900 = some true := by
  rw [heating_active_iff (HeatingState.mk (F64.finite 21) (F64.finite 0) 0 true) 900
    (by decide)]
  decide

/-- Claim C2: the body of the GET /heating_is_on handler is exactly "true"
when the shared derivation HeatingState::heating_is_on evaluates to true on
the snapshot and exactly "false" when it evaluates to false; the handler
also propagates the same panic case, so the inline computation is
extensionally equal to the shared derivation. -/
theorem server_body_matches_derivation (s : HeatingState) (now : Nat) :
    Server.heating_is_on s now =
      (s.heating_is_on now).map fun b => if b then "true" else "false" := by
  unfold Server.heating_is_on
  rcases hd : durationSince now s.current_temp_reported_at with _ | elapsed
  · simp [HeatingState.heating_is_on, hd]
  · by_cases h9 : elapsed > 15 * 60
    · simp [HeatingState.heating_is_on, hd, h9]
    · cases hs1 : s.heating_switch_is_on <;>
        cases hs2 : F64.lt s.current_temp s.target_temp <;>
        simp [HeatingState.heating_is_on, hd, h9, hs1, hs2]

/-- Claim C3 (evaluation at the failing input): with the report timestamp at
second 10 and the clock stepped back to second 5, the elapsed-time
computation takes its error branch and the derivation fails (the unwrap of
duration_since panics) instead of clamping elapsed time to zero; the HTTP
handler fails identically. -/
theorem clock_backward_panics :
    (HeatingState.mk (F64.finite 21) (F64.finite 0) 10 true).heating_is_on 5 = none ∧
    Server.heating_is_on (HeatingState.mk (F64.finite 21) (F64.finite 0) 10 true) 5 = none := by
  constructor <;> rfl

/-- Helper: no recognized command string parses as a float. -/
theorem parseCommand_parseF64_none (t : String) (c : Command)
    (hc : parseCommand t = some c) : parseF64 t = none := by
  unfold parseCommand at hc
  split_ifs at hc with h1 h2 h3 h4 h5 h6 <;>
    first
      | exact Option.noConfusion hc
      | (subst_vars; decide)

/-- Counterexample to claim C4: an authorized user in ReceiveTemp sending
the command /help does not get the generic unable-to-handle reply of
invalid_state; the message falls through to the receive_temp endpoint,
which replies with the invalid-temperature re-prompt. -/
theorem receivetemp_command_not_invalid_state :
    handleUpdate [1] ⟨1, some "/help"⟩ State.ReceiveTemp (initialHeatingState 0) 0 =
      some ⟨[Reply.invalidTemperature], State.ReceiveTemp, initialHeatingState 0, false, false⟩ ∧
    ([Reply.invalidTemperature] : List Reply) ≠ [Reply.invalidState] := by
  constructor
  · decide
  · decide

/-- Claim C4 as amended: in ReceiveTemp, an authorized message whose text is
a recognized command other than Cancel is routed to the receive_temp
endpoint rather than to the handler of that command or to the generic fallback;
since no command string parses as a float, the invalid-temperature
re-prompt is emitted, the dialogue state stays ReceiveTemp and the heating
state is unchanged. -/
theorem receivetemp_command_fallthrough (auth : List Int) (cid : Int) (t : String)
    (c : Command) (hs : HeatingState) (now : Nat)
    (hauth : check_valid_user auth cid = true)
    (hc : parseCommand t = some c) (hnc : c ≠ Command.Cancel) :
    handleUpdate auth ⟨cid, some t⟩ State.ReceiveTemp hs now =
      some ⟨[Reply.invalidTemperature], State.ReceiveTemp, hs, false, false⟩ := by
  have hf : parseF64 t = none := parseCommand_parseF64_none t c hc
  cases c with
  | Help => simp [handleUpdate, hauth, hc, receive_temp, hf]
  | Status => simp [handleUpdate, hauth, hc, receive_temp, hf]
  | SetTemp => simp [handleUpdate, hauth, hc, receive_temp, hf]
  | On => simp [handleUpdate, hauth, hc, receive_temp, hf]
  | Off => simp [handleUpdate, hauth, hc, receive_temp, hf]
  | Cancel => exact absurd rfl hnc

/-- Witness for the amended C4: the concrete command /help from authorized
chat 1 in ReceiveTemp. -/
theorem receivetemp_command_fallthrough_witness :
    handleUpdate [1] ⟨1, some "/settemp"⟩ State.ReceiveTemp (initialHeatingState 5) 7 =
      some ⟨[Reply.invalidTemperature], State.ReceiveTemp, initialHeatingState 5, false, false⟩ :=
  receivetemp_command_fallthrough [1] 1 "/settemp" Command.SetTemp (initialHeatingState 5) 7
    (by decide) (by decide) (by decide)

/-- Claim C5: in ReceiveTemp, authorized free text (not a command) that
fails to parse as a float yields the re-prompt with dialogue state and
heating state unchanged, while text that parses as a float v sets
target_temp to v, emits the confirmation and returns the dialogue to
Initial, changing no other heating field. -/
theorem awaiting_temp_text_spec (auth : List Int) (cid : Int) (t : String)
    (hs : HeatingState) (now : Nat)
    (hauth : check_valid_user auth cid = true)
    (hnc : parseCommand t = none) :
    (parseF64 t = none →
      handleUpdate auth ⟨cid, some t⟩ State.ReceiveTemp hs now =
        some ⟨[Reply.invalidTemperature], State.ReceiveTemp, hs, false, false⟩) ∧
    ∀ v, parseF64 t = some v →
      handleUpdate auth ⟨cid, some t⟩ State.ReceiveTemp hs now =
        some ⟨[Reply.targetSet v], State.Initial, { hs with target_temp := v }, false, false⟩ := by
  constructor
  · intro hf
    simp [handleUpdate, hauth, hnc, receive_temp, hf]
  · intro v hv
    simp [handleUpdate, hauth, hnc, receive_temp, hv]

/-- Witness for C5: the scenario texts abc and 19.5 from authorized chat 1. -/
theorem awaiting_temp_text_spec_witness :
    handleUpdate [1] ⟨1, some "abc"⟩ State.ReceiveTemp (initialHeatingState 0) 3 =
      some ⟨[Reply.invalidTemperature], State.ReceiveTemp, initialHeatingState 0, false, false⟩ ∧
    handleUpdate [1] ⟨1, some "19.5"⟩ State.ReceiveTemp (initialHeatingState 0) 3 =
      some ⟨[Reply.targetSet (F64.finite (mkRat 39 2))], State.Initial,
        { initialHeatingState 0 with target_temp := F64.finite (mkRat 39 2) }, false, false⟩ :=
  ⟨(awaiting_temp_text_spec [1] 1 "abc" (initialHeatingState 0) 3 (by decide) (by decide)).1
      (by decide),
    (awaiting_temp_text_spec [1] 1 "19.5" (initialHeatingState 0) 3 (by decide) (by decide)).2
      (F64.finite (mkRat 39 2)) (by decide)⟩

/-- Helper: the receive_temp endpoint never changes current_temp or
current_temp_reported_at. -/
theorem receive_temp_heating_frame (msg : Message) (d : State) (hs : HeatingState) :
    (receive_temp msg d hs).heating.current_temp_reported_at = hs.current_temp_reported_at ∧
    (receive_temp msg d hs).heating.current_temp = hs.current_temp := by
  rcases msg with ⟨cid, text⟩
  cases text with
  | none => simp [receive_temp]
  | some t => rcases hp : parseF64 t with _ | v <;> simp [receive_temp, hp]

/-- Claim C6: no conversational operation writes current_temp_reported_at or
current_temp: every possible outcome of the dispatcher (including the
target-temperature entry and the On and Off handlers) leaves both sensor
fields exactly as they were, so the sensor-report HTTP operation is the
only writer of the timestamp. -/
theorem bot_never_writes_sensor_fields (auth : List Int) (msg : Message) (d : State)
    (hs : HeatingState) (now : Nat) (r : DispatchResult)
    (h : handleUpdate auth msg d hs now = some r) :
    r.heating.current_temp_reported_at = hs.current_temp_reported_at ∧
    r.heating.current_temp = hs.current_temp := by
  unfold handleUpdate at h
  split at h
  · split at h
    · injection h with h; subst h; exact ⟨rfl, rfl⟩
    · unfold status at h
      split at h
      · exact Option.noConfusion h
      · split at h
        · exact Option.noConfusion h
        · injection h with h; subst h; exact ⟨rfl, rfl⟩
    · injection h with h; subst h; exact ⟨rfl, rfl⟩
    · injection h with h; subst h; exact ⟨rfl, rfl⟩
    · injection h with h; subst h; exact ⟨rfl, rfl⟩
    · injection h with h; subst h; exact ⟨rfl, rfl⟩
    · injection h with h; subst h; exact receive_temp_heating_frame msg _ hs
    · injection h with h; subst h; exact receive_temp_heating_frame msg _ hs
    · injection h with h; subst h; exact ⟨rfl, rfl⟩
  · injection h with h; subst h; exact ⟨rfl, rfl⟩

/-- Witness for C6: the On command from authorized chat 1 in Initial flips
the switch but leaves both sensor fields unchanged. -/
theorem bot_never_writes_sensor_fields_witness :
    ((handleUpdate [1] ⟨1, some "/on"⟩ State.Initial (initialHeatingState 4) 9).map
        (fun r => r.heating.current_temp_reported_at)) = some 4 := by
  have h := bot_never_writes_sensor_fields [1] ⟨1, some "/on"⟩ State.Initial
    (initialHeatingState 4) 9
    ⟨[Reply.heatingSetOn], State.Initial,
      { initialHeatingState 4 with heating_switch_is_on := true }, false, false⟩ (by decide)
  rw [show handleUpdate [1] ⟨1, some "/on"⟩ State.Initial (initialHeatingState 4) 9 =
      some ⟨[Reply.heatingSetOn], State.Initial,
        { initialHeatingState 4 with heating_switch_is_on := true }, false, false⟩ from by decide]
  rw [Option.map_some']
  rw [h.1]
  rfl

/-- Claim C7: the sensor-report operation overwrites current_temp with the
reported value and stamps current_temp_reported_at with the invocation
time; two calls with the same value at times t1 < t2 leave current_temp
equal to that value while the timestamp strictly increases, and neither
target_temp nor heating_switch_is_on changes. -/
theorem sensor_report_spec (v : F64) (t1 t2 : Nat) (hs : HeatingState) (hlt : t1 < t2) :
    (Server.receive_temp v t1 hs).current_temp = v ∧
    (Server.receive_temp v t2 (Server.receive_temp v t1 hs)).current_temp = v ∧
    (Server.receive_temp v t1 hs).current_temp_reported_at = t1 ∧
    (Server.receive_temp v t2 (Server.receive_temp v t1 hs)).current_temp_reported_at = t2 ∧
    (Server.receive_temp v t1 hs).current_temp_reported_at <
      (Server.receive_temp v t2 (Server.receive_temp v t1 hs)).current_temp_reported_at ∧
    (Server.receive_temp v t1 hs).target_temp = hs.target_temp ∧
    (Server.receive_temp v t1 hs).heating_switch_is_on = hs.heating_switch_is_on ∧
    (Server.receive_temp v t2 (Server.receive_temp v t1 hs)).target_temp = hs.target_temp ∧
    (Server.receive_temp v t2 (Server.receive_temp v t1 hs)).heating_switch_is_on =
      hs.heating_switch_is_on :=
  ⟨rfl, rfl, rfl, rfl, hlt, rfl, rfl, rfl, rfl⟩

/-- Witness for C7: reporting 5.0 at seconds 1 and 2 from the initial
state. -/
theorem sensor_report_spec_witness :
    (Server.receive_temp (F64.finite 5) 2
        (Server.receive_temp (F64.finite 5) 1 (initialHeatingState 0))).current_temp =
      F64.finite 5 ∧
    (Server.receive_temp (F64.finite 5) 1 (initialHeatingState 0)).current_temp_reported_at <
      (Server.receive_temp (F64.finite 5) 2
        (Server.receive_temp (F64.finite 5) 1 (initialHeatingState 0))).current_temp_reported_at :=
  ⟨(sensor_report_spec (F64.finite 5) 1 2 (initialHeatingState 0) (by decide)).2.1,
    (sensor_report_spec (F64.finite 5) 1 2 (initialHeatingState 0) (by decide)).2.2.2.2.1⟩

/-- Claim C8: an inbound message whose chat id is not in the allow-list gets
exactly the unauthorized reply, the event is logged, no handler runs, both
the dialogue state and the heating state are unchanged, and no snapshot of
the heating state is read. -/
theorem unauthorized_rejected (auth : List Int) (msg : Message) (d : State)
    (hs : HeatingState) (now : Nat)
    (h : check_valid_user auth msg.chatId = false) :
    handleUpdate auth msg d hs now = some ⟨[Reply.unauthorizedUser], d, hs, false, true⟩ := by
  simp [handleUpdate, h]

/-- Witness for C8: the status command from chat 2, which is not in the
allow-list, is rejected without a snapshot read. -/
theorem unauthorized_rejected_witness :
    handleUpdate [1] ⟨2, some "/status"⟩ State.Initial (initialHeatingState 0) 0 =
      some ⟨[Reply.unauthorizedUser], State.Initial, initialHeatingState 0, false, true⟩ :=
  unauthorized_rejected [1] ⟨2, some "/status"⟩ State.Initial (initialHeatingState 0) 0
    (by decide)

/-- Claim C9: when target_temp or current_temp is NaN, the comparison
current_temp < target_temp is false, so within the staleness window the
derived heating-active value is false for every switch setting. -/
theorem nan_never_active (s : HeatingState) (now : Nat)
    (hn : s.target_temp = F64.nan ∨ s.current_temp = F64.nan)
    (h1 : s.current_temp_reported_at ≤ now)
    (h2 : now - s.current_temp_reported_at ≤ 15 * 60) :
    s.heating_is_on now = some false := by
  have hlt : F64.lt s.current_temp s.target_temp = false := by
    rcases hn with hn | hn
    · rw [hn]; cases s.current_temp <;> rfl
    · rw [hn]; cases s.target_temp <;> rfl
  rw [heating_is_on_eq s now h1, hlt]
  simp

/-- Witness for C9: a NaN sensor reading with the switch on and a fresh
report is still inactive. -/
theorem nan_never_active_witness :
    (HeatingState.mk (F64.finite 21) F64.nan 0 true).heating_is_on 1 = some false :=
  nan_never_active (HeatingState.mk (F64.finite 21) F64.nan 0 true) 1
    (Or.inr rfl) (by decide) (by decide)

/-- Claim C10: the temperature-entry path accepts the non-finite spellings
of the Rust f64 grammar: inf, -inf, infinity and NaN each parse, the
dispatcher in ReceiveTemp then sets target_temp to the corresponding
non-finite value, emits the success confirmation and returns the dialogue
to Initial; no finiteness check intervenes. -/
theorem nonfinite_target_accepted :
    parseF64 "inf" = some F64.inf ∧
    parseF64 "-inf" = some F64.negInf ∧
    parseF64 "infinity" = some F64.inf ∧
    parseF64 "NaN" = some F64.nan ∧
    handleUpdate [1] ⟨1, some "inf"⟩ State.ReceiveTemp (initialHeatingState 0) 0 =
      some ⟨[Reply.targetSet F64.inf], State.Initial,
        { initialHeatingState 0 with target_temp := F64.inf }, false, false⟩ ∧
    handleUpdate [1] ⟨1, some "-inf"⟩ State.ReceiveTemp (initialHeatingState 0) 0 =
      some ⟨[Reply.targetSet F64.negInf], State.Initial,
        { initialHeatingState 0 with target_temp := F64.negInf }, false, false⟩ ∧
    handleUpdate [1] ⟨1, some "infinity"⟩ State.ReceiveTemp (initialHeatingState 0) 0 =
      some ⟨[Reply.targetSet F64.inf], State.Initial,
        { initialHeatingState 0 with target_temp := F64.inf }, false, false⟩ ∧
    handleUpdate [1] ⟨1, some "NaN"⟩ State.ReceiveTemp (initialHeatingState 0) 0 =
      some ⟨[Reply.targetSet F64.nan], State.Initial,
        { initialHeatingState 0 with target_temp := F64.nan }, false, false⟩ := by
  refine ⟨by decide, by decide, by decide, by decide, by decide, by decide, by decide, by decide⟩

end HeatingControl
